import Mathlib

/-!
# Verification of the key-management and cryptographic-envelope core

Shallow embedding of the encrypted-diary application's key-management core:

* Envelope cipher and key derivation (`src/lib/crypto.ts` is consumed by the
  sources but is not itself among them; its operations are modelled from the
  specification's contracts, §4.1–4.2).
* Authenticator key-wrap adapter (`src/lib/webauthn.ts`: `registerBiometric`,
  `unlockBiometric`).
* Key lifecycle state machine and bulk entry loading (`DiaryApp`:
  `checkKeyStatus`, `handleKeyReady`, `fetchEntries`) and first-time setup
  (`InitializeEncryption.handleSubmit`).

Byte sequences are `List Nat` with values `< 256`; randomness (salts, nonces,
challenges) is passed as explicit arguments; asynchronous fallible calls
return `Except`; interactions with the platform authenticator and the profile
store are recorded in an explicit operation log.
-/

namespace DiaryCore

/-- Modelled from the spec: `src/lib/crypto.ts` is absent from the sources.
A `CryptoKey` handle is an opaque symmetric key; its identity is its raw
key material (spec §3 "MasterKey — an opaque symmetric key value"). -/
structure CryptoKey where
  material : List Nat
deriving DecidableEq, Repr

/-- Modelled from the spec: base64 is a text-safe, injective, invertible
encoding (spec §6); the coding itself is irrelevant to any claim, so it is
modelled as the identity coding on byte lists. -/
def encodeBase64 (bs : List Nat) : List Nat := bs

/-- Modelled from the spec: inverse of `encodeBase64`. -/
def decodeBase64 (bs : List Nat) : List Nat := bs

/-- Modelled from the spec: `exportKey` serialises a key handle to a
text-safe string of its raw material (`src/lib/webauthn.ts` line 127
"Export Master Key to string ... Base64 string"). -/
def exportKey (k : CryptoKey) : List Nat := encodeBase64 k.material

/-- Modelled from the spec: `importKey` turns the serialised string back
into a key handle, inverse to `exportKey`. -/
def importKey (s : List Nat) : CryptoKey := ⟨decodeBase64 s⟩

/-- `window.crypto.subtle.importKey('raw', bytes, 'AES-GCM', ...)` as used in
`src/lib/webauthn.ts` lines 118–124, 178–184: raw bytes become the key
material of a wrapping key. -/
def importRawKey (bytes : List Nat) : CryptoKey := ⟨bytes⟩

/-- Modelled from the spec: the byte-position keystream of the authenticated
cipher. Any fixed deterministic function of key, nonce and position serves;
the spec fixes only the contract of `encrypt`/`decrypt` (§4.1). -/
def keystream (k : CryptoKey) (iv : List Nat) (i : Nat) : Nat :=
  (k.material.sum * 7 + iv.sum * 13 + i * 31 + 11) % 256

/-- Modelled from the spec: the authentication tag over key, nonce and
ciphertext body (§4.1: the mode is authenticated encryption; `decrypt` fails
with `IntegrityError` when the tag does not verify). -/
def tagOf (k : CryptoKey) (iv : List Nat) (body : List Nat) : Nat :=
  (k.material.sum * 101 + iv.sum * 59 +
    body.foldl (fun a b => (a * 33 + b + 1) % 65536) 5381) % 65536

/-- Mask the plaintext bytes with the keystream, starting at position `i`. -/
def mask (k : CryptoKey) (iv : List Nat) : Nat → List Nat → List Nat
  | _, [] => []
  | i, b :: bs => (b + keystream k iv i) % 256 :: mask k iv (i + 1) bs

/-- Remove the keystream again, starting at position `i`. -/
def unmask (k : CryptoKey) (iv : List Nat) : Nat → List Nat → List Nat
  | _, [] => []
  | i, b :: bs =>
      (b + 256 - keystream k iv i % 256) % 256 :: unmask k iv (i + 1) bs

/-- The `{iv, data}` pair every `encrypt` call returns and the stored
records keep (spec §6: `{encryptedPayload: base64(ciphertext), iv:
base64(nonce)}`). -/
structure Envelope where
  iv : List Nat
  data : List Nat
deriving DecidableEq, Repr

/-- Modelled from the spec: `encrypt(key, plaintextBytes) -> {nonce,
ciphertext}` (§4.1). The fresh random nonce the call draws is passed in as
`iv`; the ciphertext is the masked body followed by the authentication tag. -/
def encrypt (k : CryptoKey) (iv : List Nat) (p : List Nat) : Envelope :=
  let body := mask k iv 0 p
  { iv := iv, data := body ++ [tagOf k iv body] }

/-- Modelled from the spec: `decrypt(key, ciphertext, nonce) ->
plaintextBytes | fails(IntegrityError)` (§4.1). `none` is the
`IntegrityError` outcome: the tag did not verify. -/
def decrypt (k : CryptoKey) (data : List Nat) (iv : List Nat) :
    Option (List Nat) :=
  match data.getLast? with
  | none => none
  | some t =>
      let body := data.dropLast
      if tagOf k iv body = t then some (unmask k iv 0 body) else none

/-- A byte sequence: every element is below 256. -/
def IsByteSeq (p : List Nat) : Prop := ∀ b ∈ p, b < 256

instance (p : List Nat) : Decidable (IsByteSeq p) := by
  unfold IsByteSeq; infer_instance

lemma unmask_keystream (b s : Nat) (hb : b < 256) :
    ((b + s) % 256 + 256 - s % 256) % 256 = b := by
  have h256 : (0:Nat) < 256 := by decide
  have hs : s % 256 < 256 := Nat.mod_lt _ h256
  have h1 : (b + s) % 256 = (b + s % 256) % 256 := by
    conv_lhs => rw [Nat.add_mod]
    rw [Nat.mod_eq_of_lt hb]
  rw [h1]
  rcases Nat.lt_or_ge (b + s % 256) 256 with h | h
  · rw [Nat.mod_eq_of_lt h]
    have he : b + s % 256 + 256 - s % 256 = b + 256 := by omega
    rw [he, Nat.add_mod_right, Nat.mod_eq_of_lt hb]
  · have hlt : b + s % 256 - 256 < 256 := by omega
    have he : (b + s % 256) % 256 = b + s % 256 - 256 := by
      rw [Nat.mod_eq_sub_mod h, Nat.mod_eq_of_lt hlt]
    rw [he]
    have he2 : b + s % 256 - 256 + 256 - s % 256 = b := by omega
    rw [he2, Nat.mod_eq_of_lt hb]

lemma unmask_mask (k : CryptoKey) (iv : List Nat) :
    ∀ (i : Nat) (p : List Nat), IsByteSeq p →
      unmask k iv i (mask k iv i p) = p := by
  intro i p
  induction p generalizing i with
  | nil => intro _; rfl
  | cons b bs ih =>
      intro hp
      have hb : b < 256 := hp b (List.mem_cons_self ..)
      have hbs : IsByteSeq bs := fun x hx => hp x (List.mem_cons_of_mem _ hx)
      simp only [mask, unmask, ih (i + 1) hbs]
      rw [unmask_keystream _ _ hb]

/-- **C1** (spec §4.1, §8 "Round-trip"). For every key `k`, every plaintext
byte sequence `p` and every nonce the call draws, decrypting the result of
`encrypt(k, p)` under the same `k` returns exactly `p`:
`decrypt(k, encrypt(k, p).data, encrypt(k, p).iv) = some p`. -/
theorem encrypt_decrypt_roundtrip (k : CryptoKey) (iv p : List Nat)
    (hp : IsByteSeq p) :
    decrypt k (encrypt k iv p).data (encrypt k iv p).iv = some p := by
  unfold encrypt decrypt
  simp only [List.getLast?_concat, List.dropLast_concat, if_pos rfl, if_true]
  rw [unmask_mask k iv 0 p hp]

/-- Witness for C1 at a concrete key, nonce and plaintext. -/
theorem encrypt_decrypt_roundtrip_witness :
    decrypt ⟨[1, 2, 3]⟩ (encrypt ⟨[1, 2, 3]⟩ [9, 8] [104, 105]).data
      (encrypt ⟨[1, 2, 3]⟩ [9, 8] [104, 105]).iv = some [104, 105] :=
  encrypt_decrypt_roundtrip ⟨[1, 2, 3]⟩ [9, 8] [104, 105] (by decide)

/-!
## Key derivation and verification (modelled from the spec)

`deriveKey`, `generateSalt` and `KEY_CHECK_STRING` live in the absent
`src/lib/crypto.ts`; only the spec's contracts constrain them (§4.2).
-/

/-- Modelled from the spec: `deriveKey(password, salt) -> MasterKey` is a
deterministic function mapping the same `(password, salt)` pair to the same
key every time (spec §4.2). Being a Lean function it is deterministic; the
key material is an injective pairing of password and salt bytes (the `0`
separator keeps the pairing injective on byte sequences, whose elements are
all below 256). -/
def deriveKey (password salt : List Nat) : CryptoKey :=
  ⟨password ++ [0] ++ salt⟩

/-- Modelled from the spec: the fixed, publicly-known constant encrypted to
form the `KeyCheckArtifact` (spec §3); its concrete value is irrelevant,
only that it is fixed. These are the bytes of "KEY_CHECK". -/
def KEY_CHECK_STRING : List Nat := [75, 69, 89, 95, 67, 72, 69, 67, 75]

/-!
## Authenticator key-wrap adapter (`src/lib/webauthn.ts`)
-/

/-- The `BiometricData` record returned by `registerBiometric` and consumed
by `unlockBiometric` (`src/types.ts` declares it; spec §3
BiometricWrapRecord). All four fields are base64 strings in the source. -/
structure BiometricData where
  credentialId : List Nat
  salt : List Nat
  encryptedKey : List Nat
  iv : List Nat
deriving DecidableEq, Repr

/-- The error outcomes of the webauthn adapter, named after the spec's error
taxonomy (§7); each corresponds to one `throw` site in
`src/lib/webauthn.ts`. -/
inductive WebAuthnError where
  /-- "WebAuthn not supported" (line 29). -/
  | notSupported
  /-- "Failed to create credential" (line 70): creation returned nothing. -/
  | createFailed
  /-- "Authenticator does not support PRF extension..." (line 114) /
  "Could not retrieve PRF key from authenticator." (line 172). -/
  | authenticatorCapability
  /-- "Authentication failed" (line 168): the unlock assertion returned
  nothing (declined / cancelled). -/
  | authenticationFailed
  /-- Unwrapping the stored key blob failed integrity verification inside
  `decrypt` (line 187); the spec names this `UnwrapFailedError` (§4.3). -/
  | unwrapFailed
deriving DecidableEq, Repr

/-- One observable interaction with the outside world, recorded in an
operation log: the two authenticator calls the adapter makes, plus the
operations it never makes (profile-store writes and password-based key
derivation), present in the type so their absence is a provable fact. -/
inductive AuthOp where
  /-- `navigator.credentials.create(...)`. -/
  | createOp
  /-- `navigator.credentials.get(...)` (an assertion). -/
  | getOp
  /-- A write of any record to the external profile store. -/
  | persistOp
  /-- A password-based derivation (the password path). -/
  | derivePasswordOp
deriving DecidableEq, Repr

/-- A deterministic model of the platform authenticator
(`navigator.credentials` plus its PRF extension): `prf` is the
authenticator's pseudo-random function over (credential raw id, salt),
`none` meaning the extension is unsupported for that evaluation;
`createCredential` is the raw id of the credential a creation call returns
(`none`: creation returned nothing); `createReturnsPrf` says whether the
creation response already exposes PRF results in its client extension
results; `getAssertion` says whether an assertion against the given raw id
completes (user approves). -/
structure Authenticator where
  supported : Bool
  createCredential : Option (List Nat)
  createReturnsPrf : Bool
  getAssertion : List Nat → Bool
  prf : List Nat → List Nat → Option (List Nat)

/-- `registerBiometric(masterKey, userId)` from `src/lib/webauthn.ts` lines
28–138, with the randomness (the fresh 32-byte PRF salt `saltBuffer` and the
nonce the wrapping `encrypt` call draws) passed explicitly and every
authenticator interaction logged. Steps, as in the source: support check;
credential creation with the salt as PRF evaluation input; Branch A — use
the PRF output of the creation response when present; Branch B — otherwise
one assertion against the just-created credential with the same salt; fail
with the capability error when neither yields an output; import the output
as the raw wrapping key; export the master key; wrap it with `encrypt`;
return the four-field record. The user id only feeds the credential's user
handle. -/
def registerBiometric (auth : Authenticator) (masterKey : CryptoKey)
    (userId : List Nat) (saltBuffer wrapIv : List Nat) :
    Except WebAuthnError BiometricData × List AuthOp :=
  if auth.supported = false then (.error .notSupported, [])
  else
    match auth.createCredential with
    | none => (.error .createFailed, [.createOp])
    | some rawId =>
        let credentialId := encodeBase64 rawId
        let fromCreate : Option (List Nat) :=
          if auth.createReturnsPrf then auth.prf rawId saltBuffer else none
        let step :=
          match fromCreate with
          | some m => (some m, [AuthOp.createOp])
          | none =>
              if auth.getAssertion rawId then
                (auth.prf rawId saltBuffer, [AuthOp.createOp, AuthOp.getOp])
              else (none, [AuthOp.createOp, AuthOp.getOp])
        match step with
        | (none, ops) => (.error .authenticatorCapability, ops)
        | (some prfKeyMaterial, ops) =>
            let wrappingKey := importRawKey prfKeyMaterial
            let masterKeyString := exportKey masterKey
            let env := encrypt wrappingKey wrapIv masterKeyString
            (.ok { credentialId := credentialId,
                   salt := encodeBase64 saltBuffer,
                   encryptedKey := env.data,
                   iv := env.iv }, ops)

/-- `unlockBiometric(data)` from `src/lib/webauthn.ts` lines 143–191:
assert against the stored credential id with the stored salt as PRF
evaluation input; a missing assertion is "Authentication failed"; a missing
PRF output is the capability error; re-derive the wrapping key from the
output; `decrypt` the stored wrapped-key ciphertext, integrity failure
being the unwrap failure; import the recovered string as the master key. -/
def unlockBiometric (auth : Authenticator) (data : BiometricData) :
    Except WebAuthnError CryptoKey × List AuthOp :=
  let saltBuffer := decodeBase64 data.salt
  let credentialIdBuffer := decodeBase64 data.credentialId
  if auth.getAssertion credentialIdBuffer = false then
    (.error .authenticationFailed, [.getOp])
  else
    match auth.prf credentialIdBuffer saltBuffer with
    | none => (.error .authenticatorCapability, [.getOp])
    | some prfKeyMaterial =>
        let wrappingKey := importRawKey prfKeyMaterial
        match decrypt wrappingKey data.encryptedKey data.iv with
        | none => (.error .unwrapFailed, [.getOp])
        | some masterKeyString => (.ok (importKey masterKeyString), [.getOp])

/-- **C2** (spec §8 "Biometric round-trip"). For every master key `k` and
user id, with an authenticator whose PRF output for the created credential
and the generated salt is a fixed deterministic value (and which completes
the needed interactions), `unlockBiometric` applied to the record
`registerBiometric(k, userId)` returns recovers a key equal to `k`. -/
theorem unlock_register_roundtrip (auth : Authenticator) (k : CryptoKey)
    (userId saltBuffer wrapIv rawId : List Nat) (rec : BiometricData)
    (hk : IsByteSeq k.material)
    (hsupp : auth.supported = true)
    (hcreate : auth.createCredential = some rawId)
    (hget : auth.getAssertion rawId = true)
    (hreg : (registerBiometric auth k userId saltBuffer wrapIv).1 = .ok rec) :
    (unlockBiometric auth rec).1 = .ok k := by
  unfold registerBiometric at hreg
  rw [hsupp, hcreate] at hreg
  simp only [Bool.true_eq_false, if_false] at hreg
  rcases hprfA : (if auth.createReturnsPrf then auth.prf rawId saltBuffer
      else none) with _ | m
  · rw [hprfA, hget] at hreg
    simp only [if_true] at hreg
    rcases hprfB : auth.prf rawId saltBuffer with _ | m
    · rw [hprfB] at hreg; exact absurd hreg (by simp)
    · rw [hprfB] at hreg
      simp only [Except.ok.injEq] at hreg
      subst hreg
      unfold unlockBiometric
      simp only [decodeBase64, encodeBase64, hget, Bool.true_eq_false,
        if_false, hprfB]
      rw [encrypt_decrypt_roundtrip (importRawKey m) wrapIv (exportKey k)
        (by simpa [exportKey, encodeBase64] using hk)]
      simp [importKey, exportKey, decodeBase64, encodeBase64]
  · rw [hprfA] at hreg
    simp only [Except.ok.injEq] at hreg
    subst hreg
    have hprfB : auth.prf rawId saltBuffer = some m := by
      by_cases hc : auth.createReturnsPrf
      · rw [if_pos hc] at hprfA; exact hprfA
      · rw [if_neg hc] at hprfA; exact absurd hprfA (by simp)
    unfold unlockBiometric
    simp only [decodeBase64, encodeBase64, hget, Bool.true_eq_false,
      if_false, hprfB]
    rw [encrypt_decrypt_roundtrip (importRawKey m) wrapIv (exportKey k)
      (by simpa [exportKey, encodeBase64] using hk)]
    simp [importKey, exportKey, decodeBase64, encodeBase64]

/-- An authenticator for the witnesses: one credential `[7]`, PRF output
`[42, 43]` for any evaluation, creation does not expose PRF results
(Branch B), assertions complete. -/
def demoAuth : Authenticator :=
  { supported := true
    createCredential := some [7]
    createReturnsPrf := false
    getAssertion := fun _ => true
    prf := fun _ _ => some [42, 43] }

/-- Witness for C2: the concrete round-trip under `demoAuth`. -/
theorem unlock_register_roundtrip_witness :
    (unlockBiometric demoAuth
      { credentialId := [7], salt := [5],
        encryptedKey := (encrypt ⟨[42, 43]⟩ [6] [1, 2]).data,
        iv := (encrypt ⟨[42, 43]⟩ [6] [1, 2]).iv }).1 = .ok ⟨[1, 2]⟩ :=
  unlock_register_roundtrip demoAuth ⟨[1, 2]⟩ [99] [5] [6] [7] _
    (by decide) rfl rfl rfl rfl

/-- **C3** (spec §4.3 registration steps 3–5). In every run of
`registerBiometric` (support check passed, credential created): Branch A —
when the creation response contains a PRF output for the generated salt, it
is used directly as wrapping-key material and no assertion is performed
(log `[createOp]`); Branch B — otherwise exactly one additional assertion
with the same salt is performed and its PRF output is used (log
`[createOp, getOp]`); and when neither yields an output — the extension
unsupported, or the follow-up assertion not completing — registration fails
with the capability error and returns no record. -/
theorem register_branch_structure (auth : Authenticator) (k : CryptoKey)
    (userId saltBuffer wrapIv rawId : List Nat)
    (hsupp : auth.supported = true)
    (hcreate : auth.createCredential = some rawId) :
    (∀ m, auth.createReturnsPrf = true →
      auth.prf rawId saltBuffer = some m →
      registerBiometric auth k userId saltBuffer wrapIv =
        (.ok { credentialId := encodeBase64 rawId,
               salt := encodeBase64 saltBuffer,
               encryptedKey :=
                 (encrypt (importRawKey m) wrapIv (exportKey k)).data,
               iv := (encrypt (importRawKey m) wrapIv (exportKey k)).iv },
         [.createOp])) ∧
    (∀ m, auth.createReturnsPrf = false →
      auth.getAssertion rawId = true →
      auth.prf rawId saltBuffer = some m →
      registerBiometric auth k userId saltBuffer wrapIv =
        (.ok { credentialId := encodeBase64 rawId,
               salt := encodeBase64 saltBuffer,
               encryptedKey :=
                 (encrypt (importRawKey m) wrapIv (exportKey k)).data,
               iv := (encrypt (importRawKey m) wrapIv (exportKey k)).iv },
         [.createOp, .getOp])) ∧
    (auth.prf rawId saltBuffer = none →
      registerBiometric auth k userId saltBuffer wrapIv =
        (.error .authenticatorCapability, [.createOp, .getOp])) ∧
    (auth.createReturnsPrf = false → auth.getAssertion rawId = false →
      registerBiometric auth k userId saltBuffer wrapIv =
        (.error .authenticatorCapability, [.createOp, .getOp])) := by
  refine ⟨?_, ?_, ?_, ?_⟩
  · intro m hA hprf
    simp [registerBiometric, hsupp, hcreate, hA, hprf]
  · intro m hA hget hprf
    simp [registerBiometric, hsupp, hcreate, hA, hget, hprf]
  · intro hprf
    by_cases hA : auth.createReturnsPrf <;>
      by_cases hget : auth.getAssertion rawId <;>
        simp [registerBiometric, hsupp, hcreate, hA, hget, hprf]
  · intro hA hget
    rcases hprf : auth.prf rawId saltBuffer with _ | m <;>
      simp [registerBiometric, hsupp, hcreate, hA, hget, hprf]

/-- Witness for C3: Branch B under `demoAuth` produces the wrap of the
master key with exactly one additional assertion. -/
theorem register_branch_structure_witness :
    registerBiometric demoAuth ⟨[1, 2]⟩ [99] [5] [6] =
      (.ok { credentialId := encodeBase64 [7],
             salt := encodeBase64 [5],
             encryptedKey :=
               (encrypt (importRawKey [42, 43]) [6] (exportKey ⟨[1, 2]⟩)).data,
             iv := (encrypt (importRawKey [42, 43]) [6]
               (exportKey ⟨[1, 2]⟩)).iv },
       [.createOp, .getOp]) :=
  (register_branch_structure demoAuth ⟨[1, 2]⟩ [99] [5] [6] [7]
    rfl rfl).2.1 [42, 43] rfl rfl rfl

/-- **C4** (spec §4.3 unlock steps 3 and 5). In every run of
`unlockBiometric`: when the assertion completes but its PRF output is
absent, the call fails with the capability error; when decrypting the
stored wrapped-key ciphertext with the re-derived wrapping key fails
integrity verification, the call fails with the unwrap error; in both cases
the result is an error (no master key), and the operation log is the single
assertion — never a password-path derivation nor a store write. -/
theorem unlock_error_paths (auth : Authenticator) (data : BiometricData) :
    (auth.getAssertion (decodeBase64 data.credentialId) = true →
      auth.prf (decodeBase64 data.credentialId) (decodeBase64 data.salt) =
        none →
      unlockBiometric auth data = (.error .authenticatorCapability,
        [.getOp])) ∧
    (∀ m, auth.getAssertion (decodeBase64 data.credentialId) = true →
      auth.prf (decodeBase64 data.credentialId) (decodeBase64 data.salt) =
        some m →
      decrypt (importRawKey m) data.encryptedKey data.iv = none →
      unlockBiometric auth data = (.error .unwrapFailed, [.getOp])) ∧
    AuthOp.derivePasswordOp ∉ (unlockBiometric auth data).2 ∧
    AuthOp.persistOp ∉ (unlockBiometric auth data).2 := by
  refine ⟨?_, ?_, ?_, ?_⟩
  · intro hget hprf
    simp [unlockBiometric, hget, hprf]
  · intro m hget hprf hdec
    simp [unlockBiometric, hget, hprf, hdec]
  · by_cases hget : auth.getAssertion (decodeBase64 data.credentialId) <;>
      rcases hprf : auth.prf (decodeBase64 data.credentialId)
        (decodeBase64 data.salt) with _ | m <;>
      simp [unlockBiometric, hget, hprf] <;>
      rcases hdec : decrypt (importRawKey m) data.encryptedKey data.iv
        with _ | s <;> simp
  · by_cases hget : auth.getAssertion (decodeBase64 data.credentialId) <;>
      rcases hprf : auth.prf (decodeBase64 data.credentialId)
        (decodeBase64 data.salt) with _ | m <;>
      simp [unlockBiometric, hget, hprf] <;>
      rcases hdec : decrypt (importRawKey m) data.encryptedKey data.iv
        with _ | s <;> simp

/-- An authenticator whose assertions complete but whose PRF extension is
unsupported, for the C4 witness. -/
def noPrfAuth : Authenticator :=
  { supported := true
    createCredential := some [7]
    createReturnsPrf := false
    getAssertion := fun _ => true
    prf := fun _ _ => none }

/-- Witness for C4: absent PRF output on unlock yields the capability
error. -/
theorem unlock_error_paths_witness :
    unlockBiometric noPrfAuth
      { credentialId := [7], salt := [5], encryptedKey := [0], iv := [6] } =
      (.error .authenticatorCapability, [.getOp]) :=
  (unlock_error_paths noPrfAuth
    { credentialId := [7], salt := [5], encryptedKey := [0], iv := [6] }).1
    rfl rfl

/-- **C9** (spec §5 Cancellation). `registerBiometric` never writes to the
profile store (no `persistOp` in any run's log, so a cancelled or failed
flow can leave no half-written record behind); a creation that returns
nothing resolves the call with an error; and a record is returned only when
every step succeeded, in which case it is the complete four-field record
wrapping the master key under the authenticator's PRF output. -/
theorem register_no_partial_persistence (auth : Authenticator)
    (k : CryptoKey) (userId saltBuffer wrapIv : List Nat) :
    AuthOp.persistOp ∉ (registerBiometric auth k userId saltBuffer wrapIv).2 ∧
    (auth.supported = true → auth.createCredential = none →
      registerBiometric auth k userId saltBuffer wrapIv =
        (.error .createFailed, [.createOp])) ∧
    (∀ rec, (registerBiometric auth k userId saltBuffer wrapIv).1 =
        .ok rec →
      auth.supported = true ∧
      ∃ rawId m, auth.createCredential = some rawId ∧
        auth.prf rawId saltBuffer = some m ∧
        rec = { credentialId := encodeBase64 rawId,
                salt := encodeBase64 saltBuffer,
                encryptedKey :=
                  (encrypt (importRawKey m) wrapIv (exportKey k)).data,
                iv := (encrypt (importRawKey m) wrapIv
                  (exportKey k)).iv }) := by
  refine ⟨?_, ?_, ?_⟩
  · by_cases hs : auth.supported = true
    · rcases hc : auth.createCredential with _ | rawId
      · simp [registerBiometric, hs, hc]
      · by_cases hA : auth.createReturnsPrf = true <;>
          by_cases hget : auth.getAssertion rawId = true <;>
          rcases hprf : auth.prf rawId saltBuffer with _ | m <;>
          simp [registerBiometric, hs, hc, hA, hget, hprf]
    · simp only [Bool.not_eq_true] at hs
      simp [registerBiometric, hs]
  · intro hs hc
    simp [registerBiometric, hs, hc]
  · intro rec hok
    by_cases hs : auth.supported = true
    · refine ⟨hs, ?_⟩
      rcases hc : auth.createCredential with _ | rawId
      · simp [registerBiometric, hs, hc] at hok
      · refine ⟨rawId, ?_⟩
        by_cases hA : auth.createReturnsPrf = true <;>
          by_cases hget : auth.getAssertion rawId = true <;>
          rcases hprf : auth.prf rawId saltBuffer with _ | m <;>
          simp [registerBiometric, hs, hc, hA, hget, hprf] at hok <;>
          exact ⟨m, rfl, rfl, by simp [← hok]⟩
    · simp only [Bool.not_eq_true] at hs
      simp [registerBiometric, hs] at hok

/-- Witness for C9: a creation that returns nothing resolves with an
error, with no persistence. -/
theorem register_no_partial_persistence_witness :
    registerBiometric
      { demoAuth with createCredential := none } ⟨[1, 2]⟩ [99] [5] [6] =
      (.error .createFailed, [.createOp]) :=
  (register_no_partial_persistence
    { demoAuth with createCredential := none } ⟨[1, 2]⟩ [99] [5] [6]).2.1
    rfl rfl

/-!
## Key lifecycle state machine (`DiaryApp`)
-/

/-- The `KeyStatus` union from `DiaryApp`:
`'checking' | 'needed' | 'reauth' | 'ready'`. -/
inductive KeyStatus where
  | checking
  | needed
  | reauth
  | ready
deriving DecidableEq, Repr

/-- The `checkKeyStatus` effect of `DiaryApp`: with a key already in the
context the status becomes `ready`; otherwise the profile row for the
account is looked up (`maybeSingle`), absence meaning a new user
(`needed`), presence a returning user (`reauth`); a lookup error signs the
user out and leaves the status untouched (`checking`). The lookup result is
passed in: `.error ()` a store error, `.ok none` no profile row, `.ok
(some pid)` the row's id. -/
def checkKeyStatus (key : Option CryptoKey)
    (lookup : Except Unit (Option (List Nat))) : KeyStatus :=
  match key with
  | some _ => .ready
  | none =>
      match lookup with
      | .error _ => .checking
      | .ok none => .needed
      | .ok (some _) => .reauth

/-- **C5** (spec §4.4 `Checking`). Out of `Checking` (no key in the
context yet): the status becomes `needed` exactly when the account's
key-setup profile row does not exist, `reauth` exactly when it does, a
lookup error selects no key path (the status stays `checking`), and a key
already present short-circuits to `ready`. -/
theorem checking_selects_key_path :
    (∀ lookup, checkKeyStatus none lookup = .needed ↔ lookup = .ok none) ∧
    (∀ lookup, checkKeyStatus none lookup = .reauth ↔
      ∃ pid, lookup = .ok (some pid)) ∧
    (∀ e, checkKeyStatus none (.error e) = .checking) ∧
    (∀ k lookup, checkKeyStatus (some k) lookup = .ready) := by
  refine ⟨?_, ?_, ?_, ?_⟩
  · intro lookup
    rcases lookup with e | _ | pid <;> simp [checkKeyStatus]
  · intro lookup
    rcases lookup with e | _ | pid <;> simp [checkKeyStatus]
  · intro e; rfl
  · intro k lookup; rfl

/-- Witness for C5: an absent profile row sends `Checking` to `Needed`. -/
theorem checking_selects_key_path_witness :
    checkKeyStatus none (.ok none) = .needed :=
  (checking_selects_key_path.1 (.ok none)).mpr rfl

/-- The events that drive `DiaryApp`'s key lifecycle within one session:
the `checkKeyStatus` effect completing with a lookup result, and
`handleKeyReady` — the `onSuccess` callback handed to
`InitializeEncryption` and `PasswordPrompt`, which are rendered only in the
`needed` resp. `reauth` states. -/
inductive AppEvent where
  | checkDone (lookup : Except Unit (Option (List Nat)))
  | keyReady (k : CryptoKey)

/-- The session state `DiaryApp` holds: the `keyStatus` component and the
crypto context's `key` (`useState<CryptoKey | null>` in
`CryptoProvider`). -/
structure AppState where
  keyStatus : KeyStatus
  key : Option CryptoKey
deriving DecidableEq, Repr

/-- One step of the session's key lifecycle. `checkDone` sets only the
status, as `checkKeyStatus` computes it; `keyReady k` is `handleKeyReady`:
`setKey(newKey); setKeyStatus('ready')` — reachable only while
`InitializeEncryption` or `PasswordPrompt` is rendered, i.e. in the
`needed` or `reauth` state. A new session starts at
`⟨.checking, none⟩`. -/
def stepApp (s : AppState) (e : AppEvent) : AppState :=
  match e with
  | .checkDone lookup => { s with keyStatus := checkKeyStatus s.key lookup }
  | .keyReady k =>
      if s.keyStatus = .needed ∨ s.keyStatus = .reauth then
        { keyStatus := .ready, key := some k }
      else s

/-- **C8** (spec §5 shared-resource policy). Within one session the
context's master key is write-once, set at the `ready` transition: any step
that changes the key is a transition into `ready` from a non-`ready`
state; from `ready` no step changes the key; and with the key present,
`ready` is terminal for the session. -/
theorem masterkey_write_once :
    (∀ s e, (stepApp s e).key ≠ s.key →
      s.keyStatus ≠ .ready ∧ (stepApp s e).keyStatus = .ready) ∧
    (∀ s e, s.keyStatus = .ready → (stepApp s e).key = s.key) ∧
    (∀ s e, s.keyStatus = .ready → s.key.isSome = true →
      (stepApp s e).keyStatus = .ready) := by
  refine ⟨?_, ?_, ?_⟩
  · intro s e hne
    rcases e with lookup | k
    · exact absurd rfl hne
    · by_cases hs : s.keyStatus = .needed ∨ s.keyStatus = .reauth
      · simp only [stepApp, if_pos hs]
        exact ⟨fun hr => by rcases hs with h | h <;> rw [hr] at h <;>
          exact KeyStatus.noConfusion h, trivial⟩
      · simp only [stepApp, if_neg hs] at hne
        exact absurd rfl hne
  · intro s e hready
    rcases e with lookup | k
    · rfl
    · have hs : ¬(s.keyStatus = .needed ∨ s.keyStatus = .reauth) := by
        rw [hready]; rintro (h | h) <;> exact KeyStatus.noConfusion h
      simp only [stepApp, if_neg hs]
  · intro s e hready hkey
    rcases e with lookup | k
    · rcases hk : s.key with _ | k0
      · rw [hk] at hkey; exact absurd hkey (by simp)
      · simp only [stepApp, hk, checkKeyStatus]
    · have hs : ¬(s.keyStatus = .needed ∨ s.keyStatus = .reauth) := by
        rw [hready]; rintro (h | h) <;> exact KeyStatus.noConfusion h
      simp only [stepApp]
      rw [if_neg hs]
      exact hready

/-- Witness for C8: from a `ready` state, `handleKeyReady` does not
replace the key. -/
theorem masterkey_write_once_witness :
    (stepApp ⟨.ready, some ⟨[1]⟩⟩ (.keyReady ⟨[2]⟩)).key = some ⟨[1]⟩ :=
  masterkey_write_once.2.1 ⟨.ready, some ⟨[1]⟩⟩ (.keyReady ⟨[2]⟩) rfl

/-!
## Bulk entry loading (`DiaryApp.fetchEntries`)
-/

/-- One fetched `diaries` row, as `fetchEntries` consumes it: the content
envelope `{encrypted_entry, iv}` (spec §6). The row's metadata columns
(`id`, `owner_id`, `created_at`), copied through unchanged, are omitted. -/
structure StoredEntry where
  encrypted_entry : List Nat
  iv : List Nat
deriving DecidableEq, Repr

/-- `JSON.stringify({title, content})` as `handleSaveEntry` produces it:
an injective length-prefixed coding of the title and content bytes. -/
def encodeEntryPayload (title content : List Nat) : List Nat :=
  title.length :: title ++ content

/-- `JSON.parse` plus destructuring of `{title, content}` as `fetchEntries`
applies it to the decrypted bytes; `none` is a parse failure. -/
def decodeEntryPayload (bs : List Nat) : Option (List Nat × List Nat) :=
  match bs with
  | [] => none
  | n :: rest =>
      if n ≤ rest.length then some (rest.take n, rest.drop n) else none

/-- The body of the lambda `fetchEntries` maps over the fetched rows:
decrypt the entry under the session key, then parse the plaintext;
`none` is a rejected promise (decrypt or parse failure). -/
def processEntry (key : CryptoKey) (r : StoredEntry) :
    Option (List Nat × List Nat) :=
  (decrypt key r.encrypted_entry r.iv).bind decodeEntryPayload

/-- `fetchEntries` from `DiaryApp` (lines 183–222): `Promise.allSettled`
over the per-row decryptions, keep the fulfilled ones
(`successfullyDecryptedEntries`), and report
`failedCount = decryptionResults.length -
successfullyDecryptedEntries.length`. -/
def fetchEntries (key : CryptoKey) (rows : List StoredEntry) :
    List (List Nat × List Nat) × Nat :=
  let decryptionResults := rows.map (processEntry key)
  let successfullyDecryptedEntries := decryptionResults.filterMap id
  (successfullyDecryptedEntries,
   decryptionResults.length - successfullyDecryptedEntries.length)

lemma filterMap_length_add_filter (g : StoredEntry → Option (List Nat × List Nat)) :
    ∀ rows : List StoredEntry,
      (rows.filterMap g).length +
        (rows.filter (fun r => (g r).isNone)).length = rows.length := by
  intro rows
  induction rows with
  | nil => rfl
  | cons r rs ih =>
      rcases hr : g r with _ | v <;>
        simp [List.filterMap_cons, hr, List.filter_cons] <;> omega

/-- The demonstration key for the corrupted-batch scenario. -/
def demoKey : CryptoKey := ⟨[1, 2, 3]⟩

/-- A well-formed stored row: entry `i`'s payload encrypted under
`demoKey`. -/
def demoRow (i : Nat) : StoredEntry :=
  let env := encrypt demoKey [10 + i, 20] (encodeEntryPayload [65 + i] [97 + i])
  { encrypted_entry := env.data, iv := env.iv }

/-- A corrupted stored row: entry `i` with its `iv` and ciphertext
swapped (spec §8's corruption scenario). -/
def corruptRow (i : Nat) : StoredEntry :=
  let env := encrypt demoKey [10 + i, 20] (encodeEntryPayload [65 + i] [97 + i])
  { encrypted_entry := env.iv, iv := env.data }

/-- Ten stored rows of which the third and sixth are corrupted. -/
def demoRows : List StoredEntry :=
  [demoRow 0, demoRow 1, corruptRow 2, demoRow 3, demoRow 4,
   corruptRow 5, demoRow 6, demoRow 7, demoRow 8, demoRow 9]

/-- **C6** (spec §7 propagation policy, §8 batch scenario). For every
batch: the bulk load completes with exactly the successfully decrypted
entries (in order), the visible result has `N - f` entries and the reported
failure count is `f`, where `f` counts the rows whose decrypt-or-parse
fails; in particular, for the ten-row batch with two corrupted rows the
result has exactly 8 entries and the failure count is 2. -/
theorem fetch_entries_isolates_failures (key : CryptoKey)
    (rows : List StoredEntry) :
    (fetchEntries key rows).1 = rows.filterMap (processEntry key) ∧
    (fetchEntries key rows).1.length =
      rows.length -
        (rows.filter (fun r => (processEntry key r).isNone)).length ∧
    (fetchEntries key rows).2 =
      (rows.filter (fun r => (processEntry key r).isNone)).length ∧
    (fetchEntries demoKey demoRows).1.length = 8 ∧
    (fetchEntries demoKey demoRows).2 = 2 := by
  have hlen := filterMap_length_add_filter (processEntry key) rows
  have hmap : (rows.map (processEntry key)).filterMap id =
      rows.filterMap (processEntry key) := by
    induction rows with
    | nil => rfl
    | cons r rs ih =>
        rcases hr : processEntry key r with _ | v <;>
          simp [List.filterMap_cons, hr, ih]
  refine ⟨hmap, ?_, ?_, by decide, by decide⟩
  · simp only [fetchEntries, hmap, List.length_map]
    omega
  · simp only [fetchEntries, hmap, List.length_map]
    omega

/-!
## First-time setup (`InitializeEncryption.handleSubmit`)
-/

/-- The error outcomes of `handleSubmit`: the too-short-password rejection
("Password must be at least 6 characters long.") and a failed profile
insert (`insertError` thrown). The "User not available" guard is a session
precondition and the user id is passed in directly. -/
inductive SetupError where
  | passwordTooShort
  | insertFailed
deriving DecidableEq, Repr

/-- The single record `handleSubmit` inserts into `profiles`: account id,
salt, and the key-check artifact's ciphertext and nonce. The optional
presentation metadata (`full_name`, `avatar_url`) copied from the session
is omitted. -/
structure ProfileInsert where
  id : List Nat
  salt : List Nat
  key_check_value : List Nat
  key_check_iv : List Nat
deriving DecidableEq, Repr

/-- The observable operations of first-time setup, in the order
`handleSubmit` performs them: salt generation, key derivation, the
key-check encryption, and the single profile insert carrying its record. -/
inductive SetupOp where
  | generateSaltOp
  | deriveKeyOp
  | encryptOp
  | insertOp (record : ProfileInsert)
deriving DecidableEq, Repr

/-- Is this operation a profile insert? -/
def isInsertOp : SetupOp → Bool
  | .insertOp _ => true
  | _ => false

/-- `InitializeEncryption.handleSubmit` (part of `DiaryApp`'s sources,
lines 17–61): reject passwords shorter than 6 characters before anything
else; otherwise `generateSalt()`, `deriveKey(password, salt)`,
`encrypt(key, KEY_CHECK_STRING)`, and one `insert` of
`{id, salt, key_check_value, key_check_iv}`; `onSuccess(key)` only when
the insert succeeded. The generated salt and the nonce drawn by the
key-check encryption are passed in as `salt` and `kcIv`; `insertOk` is the
store's verdict. -/
def handleSubmit (password userId salt kcIv : List Nat) (insertOk : Bool) :
    Except SetupError CryptoKey × List SetupOp :=
  if password.length < 6 then (.error .passwordTooShort, [])
  else
    let key := deriveKey password salt
    let env := encrypt key kcIv KEY_CHECK_STRING
    let record : ProfileInsert :=
      { id := userId, salt := salt,
        key_check_value := env.data, key_check_iv := env.iv }
    if insertOk then
      (.ok key, [.generateSaltOp, .deriveKeyOp, .encryptOp,
                 .insertOp record])
    else
      (.error .insertFailed, [.generateSaltOp, .deriveKeyOp, .encryptOp,
                              .insertOp record])

/-- **C7** (spec §3 relationships, §4.2 `createKeyCheck`). For every
accepted password, first-time setup performs exactly one profile insert,
and that insert carries the salt together with the key-check artifact —
the fixed constant encrypted under the key derived from the password and
that very salt — so neither is ever persisted without the other; the fixed
constant is encrypted exactly once; and on a successful insert the derived
key becomes the session key. -/
theorem setup_salt_keycheck_atomic (password userId salt kcIv : List Nat)
    (insertOk : Bool) (hlen : 6 ≤ password.length) :
    ((handleSubmit password userId salt kcIv insertOk).2.filter
        isInsertOp) =
      [.insertOp { id := userId, salt := salt,
                   key_check_value := (encrypt (deriveKey password salt)
                     kcIv KEY_CHECK_STRING).data,
                   key_check_iv := (encrypt (deriveKey password salt)
                     kcIv KEY_CHECK_STRING).iv }] ∧
    (handleSubmit password userId salt kcIv insertOk).2.count
      .encryptOp = 1 ∧
    (insertOk = true →
      (handleSubmit password userId salt kcIv insertOk).1 =
        .ok (deriveKey password salt)) := by
  have hnot : ¬password.length < 6 := by omega
  rcases insertOk with _ | _ <;>
    refine ⟨?_, ?_, ?_⟩ <;>
    simp [handleSubmit, hnot, isInsertOp, List.filter_cons, List.count_cons]

/-- Witness for C7 at a six-byte password. -/
theorem setup_salt_keycheck_atomic_witness :
    ((handleSubmit [1, 2, 3, 4, 5, 6] [9] [7] [8] true).2.filter
        isInsertOp) =
      [.insertOp { id := [9], salt := [7],
                   key_check_value := (encrypt
                     (deriveKey [1, 2, 3, 4, 5, 6] [7]) [8]
                     KEY_CHECK_STRING).data,
                   key_check_iv := (encrypt
                     (deriveKey [1, 2, 3, 4, 5, 6] [7]) [8]
                     KEY_CHECK_STRING).iv }] :=
  (setup_salt_keycheck_atomic [1, 2, 3, 4, 5, 6] [9] [7] [8] true
    (by decide)).1

/-- **C10** (`InitializeEncryption.handleSubmit` lines 19–22). Every
password shorter than 6 characters is rejected with an error before any
operation runs (empty operation log: no derivation, no key-check
encryption, no insert); conversely any run that derives a key, encrypts
the key check or inserts the profile had a password of length at least
6. -/
theorem setup_password_length_gate (password userId salt kcIv : List Nat)
    (insertOk : Bool) :
    (password.length < 6 →
      handleSubmit password userId salt kcIv insertOk =
        (.error .passwordTooShort, [])) ∧
    (SetupOp.deriveKeyOp ∈
        (handleSubmit password userId salt kcIv insertOk).2 →
      6 ≤ password.length) ∧
    (SetupOp.encryptOp ∈
        (handleSubmit password userId salt kcIv insertOk).2 →
      6 ≤ password.length) ∧
    (∀ record, SetupOp.insertOp record ∈
        (handleSubmit password userId salt kcIv insertOk).2 →
      6 ≤ password.length) := by
  by_cases hlt : password.length < 6
  · refine ⟨fun _ => by simp [handleSubmit, hlt], ?_, ?_, ?_⟩ <;>
      simp [handleSubmit, hlt]
  · have h6 : 6 ≤ password.length := by omega
    exact ⟨fun h => absurd h hlt, fun _ => h6, fun _ => h6,
      fun _ _ => h6⟩

/-- Witness for C10: a five-character password is rejected with nothing
performed. -/
theorem setup_password_length_gate_witness :
    handleSubmit [1, 2, 3, 4, 5] [9] [7] [8] true =
      (.error .passwordTooShort, []) :=
  (setup_password_length_gate [1, 2, 3, 4, 5] [9] [7] [8] true).1
    (by decide)

end DiaryCore
